import Mathlib

/-!
Shallow embedding of the Client repository of `API-rust-prueba`
(`src/entities.rs`, `src/clients/entities.rs`, `src/clients/adapters.rs`,
`src/adapters.rs`) and proofs of the specification's claims about it.

Modelling conventions:
  * `chrono::NaiveDate` is modelled as `Int` (a day number); the code only
    compares dates for equality and serializes them.
  * `i32`/`i64` values are modelled as `Int`, `usize` as `Nat`; where the
    code's fixed-width behaviour matters (the `usize` subtraction in the
    page-offset computation, the `usize as i32` cast) it is made explicit
    (`checked_sub`, `usizeToI32`).
  * The SQLite table is a list of rows (`DB`); a Diesel query is its filter
    predicate list, built exactly as the source pushes `.filter` calls.
  * Establishing a connection is a value of type `Except String Unit`
    passed to each operation, matching how every call site in
    `clients/adapters.rs` uses `DieselConnector::establish_connection()?`.
    The connector itself (`src/adapters.rs`) is modelled separately by
    `establish_connection` below, with its panics made explicit.
-/

/-- `Client` from `src/clients/entities.rs`: `client_id: Option<i32>`,
`active: bool`, `username: String`, `pwd: String`, `birth_date: NaiveDate`. -/
structure Client where
  client_id : Option Int
  active : Bool
  username : String
  pwd : String
  birth_date : Int
deriving Repr, DecidableEq

/-- `ClientCriteria` from `src/clients/entities.rs`: every field optional. -/
structure ClientCriteria where
  client_id : Option Int
  active : Option Bool
  username : Option String
  pwd : Option String
  birth_date : Option Int
deriving Repr, DecidableEq

/-- `Search<Criteria>` from `src/entities.rs`: field order is
`total_pages`, `page`, `criteria`, `result` (the serialized row page). -/
structure Search (Criteria : Type) where
  total_pages : Nat
  page : Nat
  criteria : Criteria
  result : String
deriving Repr, DecidableEq

/-- `Search::new(page, total_pages, criteria, result)` from `src/entities.rs`:
note the argument order differs from the field order. -/
def Search.new {Criteria : Type} (page : Nat) (total_pages : Nat)
    (criteria : Criteria) (result : String) : Search Criteria :=
  { total_pages := total_pages, page := page, criteria := criteria,
    result := result }

/-- `Client::id` (the `Identifiable` impl in `src/clients/entities.rs`)
returns the `client_id` field. -/
def Client.id (c : Client) : Option Int :=
  c.client_id

/-- `SoftDeletable::is_deleted` for `Client`
(`src/clients/entities.rs`): returns the `active` field. -/
def Client.is_deleted (c : Client) : Bool :=
  c.active

/-- `SoftDeletable::set_deleted` for `Client`
(`src/clients/entities.rs`): writes `deleted` into the `active` field. -/
def Client.set_deleted (c : Client) (deleted : Bool) : Client :=
  { c with active := deleted }

/-- The `clients` table: a list of rows. -/
abbrev DB := List Client

/-- SQL equality on the nullable `client_id` column as Diesel's `.eq`
generates it: `NULL = x` and `x = NULL` are not true. -/
def nullEq (a b : Option Int) : Bool :=
  match a, b with
  | some x, some y => x == y
  | _, _ => false

/-- serde_json serialization of one `Client` row (shape of
`serde_json::to_string` on the derived `Serialize`). -/
def clientToJson (c : Client) : String :=
  "\x7b\"client_id\":" ++
    (match c.client_id with
     | none => "null"
     | some i => toString i) ++
  ",\"active\":" ++ (if c.active then "true" else "false") ++
  ",\"username\":\"" ++ c.username ++
  "\",\"pwd\":\"" ++ c.pwd ++
  "\",\"birth_date\":" ++ toString c.birth_date ++ "\x7d"

/-- `serde_json::to_string(&result)` on the loaded `Vec<Client>`. -/
def serializeClients (rows : List Client) : String :=
  "[" ++ String.intercalate "," (rows.map clientToJson) ++ "]"

/-- A Diesel boxed query over `clients` is modelled by its list of filter
predicates; a row is in the result set iff every predicate holds (SQL AND). -/
def rowMatches (fs : List (Client → Bool)) (r : Client) : Bool :=
  fs.all (fun p => p r)

/-- Rust `usize` checked subtraction: `none` models the underflow
(debug-build panic) when the subtrahend exceeds the minuend. -/
def checked_sub (a b : Nat) : Option Nat :=
  if a < b then none else some (a - b)

/-- Rust `id as i32` on a `usize`: two's-complement truncation to 32 bits. -/
def usizeToI32 (n : Nat) : Int :=
  if n % 2 ^ 32 < 2 ^ 31 then ((n % 2 ^ 32 : Nat) : Int)
  else ((n % 2 ^ 32 : Nat) : Int) - 2 ^ 32

/-- Outcome of `DieselConnector::establish_connection` in
`src/adapters.rs`: either a live connection or a process panic. -/
inductive ConnResult where
  | conn
  | panicked (msg : String)
deriving Repr, DecidableEq

/-- `DieselConnector::establish_connection` from `src/adapters.rs` as
written: `databaseUrl` is `env::var("DATABASE_URL")` (`none` = unset),
`canConnect` tells whether `SqliteConnection::establish` succeeds. The
function `expect`s the env var and `panic!`s on connection failure, so
both failure classes abort the process instead of returning an error. -/
def establish_connection (databaseUrl : Option String)
    (canConnect : String → Bool) : ConnResult :=
  match databaseUrl with
  | none => .panicked "DATABASE_URL must be set"
  | some url =>
    if canConnect url then .conn
    else .panicked ("Error connecting to " ++ url)

/-- Result of a mutating repository operation: the value returned to the
caller, whether a connection was established, and whether a store call
(insert/update/delete statement) was executed. -/
structure OpResult where
  result : Except String DB
  connected : Bool
  storeCalled : Bool
deriving Repr

namespace ClientRepository

/-- `ClientRepository::item_is_valid` from `src/clients/adapters.rs`:
the always-succeeding validation placeholder. -/
def item_is_valid (_item : Client) : Except String Unit :=
  .ok ()

/-- `ClientRepository::page_size` from `src/clients/adapters.rs`. -/
def page_size : Nat :=
  15

/-- The filter chain built inside `count_clients`
(`src/clients/adapters.rs` lines 31-40): one `.filter` push per present
field, in source order `active`, `username`, `birth_date`. -/
def count_filters (criteria : ClientCriteria) : List (Client → Bool) :=
  let query : List (Client → Bool) := []
  let query : List (Client → Bool) := match criteria.active with
    | some active => query ++ [fun (r : Client) => r.active == active]
    | none => query
  let query : List (Client → Bool) := match criteria.username with
    | some username => query ++ [fun (r : Client) => r.username == username]
    | none => query
  let query : List (Client → Bool) := match criteria.birth_date with
    | some birth_date => query ++ [fun (r : Client) => r.birth_date == birth_date]
    | none => query
  query

/-- `ClientRepository::count_clients`: `query.count().get_result::<i64>` —
the number of rows matching the criteria's filter chain. -/
def count_clients (criteria : ClientCriteria) (db : DB) : Int :=
  ((db.filter (rowMatches (count_filters criteria))).length : Int)

/-- `ClientRepository::calculate_total_pages` from
`src/clients/adapters.rs`: guard non-positive page sizes, otherwise
round up with `(total_count + page_size - 1) / page_size` in `i64`
(truncating) division. -/
def calculate_total_pages (total_count : Int) (page_size : Int) : Int :=
  if page_size ≤ 0 then 0
  else Int.tdiv (total_count + page_size - 1) page_size

/-- `Adder::add` for `ClientRepository`: establish a connection, insert
the row. -/
def add (conn : Except String Unit) (item : Client) (db : DB) : OpResult :=
  match conn with
  | .error e => ⟨.error e, true, false⟩
  | .ok _ => ⟨.ok (db ++ [item]), true, true⟩

/-- `PermanentlyDeleter::permanently_delete` for `ClientRepository`:
reject a missing id before connecting, then delete the rows whose
`client_id` equals the item's id. -/
def permanently_delete (conn : Except String Unit) (item : Client)
    (db : DB) : OpResult :=
  if (Client.id item).isNone then
    ⟨.error "NoIDError: Item sould have an ID", false, false⟩
  else
    match conn with
    | .error e => ⟨.error e, true, false⟩
    | .ok _ =>
      ⟨.ok (db.filter (fun r => !(nullEq r.client_id (Client.id item)))),
        true, true⟩

/-- `Updater::update` for `ClientRepository`: reject a missing id before
connecting, then overwrite `active`, `username`, `pwd`, `birth_date` of
every row whose `client_id` equals the id (full-row replace; the id
column itself is not in the set list). -/
def update (conn : Except String Unit) (item : Client) (db : DB) :
    OpResult :=
  match Client.id item with
  | none => ⟨.error "Item should have an ID", false, false⟩
  | some id =>
    match conn with
    | .error e => ⟨.error e, true, false⟩
    | .ok _ =>
      ⟨.ok (db.map (fun r =>
          if nullEq r.client_id (some id) then
            { r with active := item.active, username := item.username,
                     pwd := item.pwd, birth_date := item.birth_date }
          else r)),
        true, true⟩

/-- `LogicalDeleter::logically_delete` for `ClientRepository`: reject a
missing id before connecting, then set `active` to `false` on every row
whose `client_id` equals the id. -/
def logically_delete (conn : Except String Unit) (item : Client)
    (db : DB) : OpResult :=
  match Client.id item with
  | none => ⟨.error "Item should have an ID", false, false⟩
  | some id =>
    match conn with
    | .error e => ⟨.error e, true, false⟩
    | .ok _ =>
      ⟨.ok (db.map (fun r =>
          if nullEq r.client_id (some id) then { r with active := false }
          else r)),
        true, true⟩

/-- The filter chain built inside `search_by`
(`src/clients/adapters.rs` lines 129-141): textually the same pushes as
`count_filters`, transcribed separately because the source duplicates
the code. -/
def search_filters (criteria : ClientCriteria) : List (Client → Bool) :=
  let query : List (Client → Bool) := []
  let query : List (Client → Bool) := match criteria.active with
    | some active => query ++ [fun (r : Client) => r.active == active]
    | none => query
  let query : List (Client → Bool) := match criteria.username with
    | some username => query ++ [fun (r : Client) => r.username == username]
    | none => query
  let query : List (Client → Bool) := match criteria.birth_date with
    | some birth_date => query ++ [fun (r : Client) => r.birth_date == birth_date]
    | none => query
  query

/-- `ORDER BY username ASC` (`query.order(clients::username.asc())`). -/
def orderByUsername (rows : List Client) : List Client :=
  rows.mergeSort (fun a b => decide (a.username ≤ b.username))

/-- The offset computation of `search_by`:
`(page_number - 1) * Self::page_size()` in `usize`; `none` models the
subtraction underflow at `page_number = 0`. -/
def pageOffset (page_number : Nat) : Option Nat :=
  (checked_sub page_number 1).map (fun n => n * page_size)

/-- The limit of `search_by`: `query.limit(Self::page_size() as i64)`. -/
def pageLimit : Nat :=
  page_size

/-- `Finder::search_by` for `ClientRepository`: build the filter chain,
order by username, apply offset/limit, connect, load the page, count the
matching rows, and package everything in a `Search`. The outer `Option`
is `none` exactly when the offset subtraction underflows (a panic, not a
returned error); `Except` carries the returned connection errors. -/
def search_by (conn : Except String Unit) (criteria : ClientCriteria)
    (page_number : Nat) (db : DB) :
    Option (Except String (Search ClientCriteria)) :=
  let filtered := db.filter (rowMatches (search_filters criteria))
  let ordered := orderByUsername filtered
  match pageOffset page_number with
  | none => none
  | some offset =>
    some (match conn with
      | .error e => .error e
      | .ok _ =>
        let result := (ordered.drop offset).take pageLimit
        let total_count := count_clients criteria db
        let total_pages :=
          (calculate_total_pages total_count (page_size : Int)).toNat
        .ok (Search.new page_number total_pages criteria
          (serializeClients result)))

/-- `Finder::search_by_id` for `ClientRepository`: cast the id to `i32`,
connect, load all rows with that `client_id`, and return the first if
any (`result.get(0)`); absence is `Ok(None)`. -/
def search_by_id (conn : Except String Unit) (id : Nat) (db : DB) :
    Except String (Option Client) :=
  let idI := usizeToI32 id
  match conn with
  | .error e => .error e
  | .ok _ =>
    let result := db.filter (fun r => nullEq r.client_id (some idI))
    match result.head? with
    | some client => .ok (some client)
    | none => .ok none

end ClientRepository

/-! ### Helper lemmas shared by the claim theorems -/

/-- `nullEq` against a present value holds exactly on the equal present
value. -/
theorem nullEq_some_iff (a : Option Int) (y : Int) :
    nullEq a (some y) = true ↔ a = some y := by
  cases a with
  | none => simp [nullEq]
  | some x =>
    simp only [nullEq, beq_iff_eq, Option.some.injEq]

/-- The rounded-up quotient `(a + b - 1).tdiv b` bounds `a` between
`b * (q - 1)` (strictly) and `b * q`: the defining property of the
ceiling of `a / b` for positive `b`. -/
theorem tdiv_ceil_bounds (a b : Int) (ha : 0 ≤ a) (hb : 0 < b) :
    a ≤ b * ((a + b - 1).tdiv b) ∧ b * ((a + b - 1).tdiv b - 1) < a := by
  have hn : 0 ≤ a + b - 1 := by omega
  have ht : (a + b - 1).tdiv b = (a + b - 1) / b :=
    Int.tdiv_eq_ediv hn (le_of_lt hb)
  rw [ht]
  have key : b * ((a + b - 1) / b) + (a + b - 1) % b = a + b - 1 :=
    Int.ediv_add_emod _ _
  have h1 : 0 ≤ (a + b - 1) % b := Int.emod_nonneg _ (by omega)
  have h2 : (a + b - 1) % b < b := Int.emod_lt_of_pos _ hb
  have expand : b * ((a + b - 1) / b - 1) = b * ((a + b - 1) / b) - b := by
    ring
  constructor
  · linarith
  · rw [expand]; linarith

namespace ClientRepository

/-- For a positive page number the offset subtraction does not
underflow and the offset is `(page_number - 1) * page_size`. -/
theorem pageOffset_pos (page_number : Nat) (h : 1 ≤ page_number) :
    pageOffset page_number = some ((page_number - 1) * page_size) := by
  simp [pageOffset, checked_sub, Nat.not_lt_of_le h]

/-- Sorting by username preserves the number of rows. -/
theorem orderByUsername_length (rows : List Client) :
    (orderByUsername rows).length = rows.length :=
  List.length_mergeSort rows

/-- The pages reported by `search_by` for a given criteria/database. -/
def totalPagesFor (criteria : ClientCriteria) (db : DB) : Nat :=
  (calculate_total_pages (count_clients criteria db) (page_size : Int)).toNat

/-- The number of rows matching the search filter never exceeds
`page_size * totalPagesFor`. -/
theorem filtered_le_pages (criteria : ClientCriteria) (db : DB) :
    (db.filter (rowMatches (search_filters criteria))).length ≤
      page_size * totalPagesFor criteria db := by
  have hcount : count_clients criteria db =
      ((db.filter (rowMatches (search_filters criteria))).length : Int) := rfl
  have hcalc : calculate_total_pages (count_clients criteria db)
      (page_size : Int) =
      Int.tdiv (count_clients criteria db + (page_size : Int) - 1)
        (page_size : Int) := by
    simp [calculate_total_pages, page_size]
  have hb : (0 : Int) < (page_size : Int) := by simp [page_size]
  have ha : (0 : Int) ≤ count_clients criteria db := by
    rw [hcount]; positivity
  have hceil := (tdiv_ceil_bounds (count_clients criteria db)
    (page_size : Int) ha hb).1
  rw [← hcalc] at hceil
  unfold totalPagesFor
  rw [show page_size = 15 from rfl] at hceil ⊢
  omega

/-- The value `search_by` returns whenever the offset computation does
not underflow, with the connection given. -/
theorem search_by_ok_eq (criteria : ClientCriteria) (page_number : Nat)
    (db : DB) (offset : Nat) (hpo : pageOffset page_number = some offset) :
    search_by (.ok ()) criteria page_number db =
      some (.ok (Search.new page_number (totalPagesFor criteria db) criteria
        (serializeClients
          (((orderByUsername
              (db.filter (rowMatches (search_filters criteria)))).drop
            offset).take pageLimit)))) := by
  simp only [search_by, hpo]
  rfl

end ClientRepository

/-! ### Claim theorems -/

/-- C1: for every `Client` with an absent identifier, `update`,
`logically_delete` and `permanently_delete` return the
missing-identifier error, and the check happens before any store
interaction: no connection is established and no store call is
attempted, whatever the connection outcome would have been. -/
theorem missing_id_ops_fail_without_store (conn : Except String Unit)
    (item : Client) (db : DB) (h : item.client_id = none) :
    ClientRepository.update conn item db =
      ⟨.error "Item should have an ID", false, false⟩ ∧
    ClientRepository.logically_delete conn item db =
      ⟨.error "Item should have an ID", false, false⟩ ∧
    ClientRepository.permanently_delete conn item db =
      ⟨.error "NoIDError: Item sould have an ID", false, false⟩ := by
  refine ⟨?_, ?_, ?_⟩ <;>
    simp [ClientRepository.update, ClientRepository.logically_delete,
      ClientRepository.permanently_delete, Client.id, h]

/-- Witness for C1 at a concrete id-less client. -/
theorem missing_id_ops_fail_without_store_witness :
    (⟨none, true, "u", "p", 0⟩ : Client).client_id = none ∧
    ClientRepository.update (.ok ()) ⟨none, true, "u", "p", 0⟩ [] =
      ⟨.error "Item should have an ID", false, false⟩ :=
  ⟨rfl, (missing_id_ops_fail_without_store (.ok ())
    ⟨none, true, "u", "p", 0⟩ [] rfl).1⟩

/-- C3: `calculate_total_pages` returns 0 whenever `page_size ≤ 0`, and
for positive `page_size` it returns `(total_count + page_size - 1) /
page_size` (truncating `i64` division), which is the ceiling of
`total_count / page_size` — characterized by the two bounds below; in
particular it maps `(50, 0)` to `0` and `(32, 15)` to `3`. -/
theorem calculate_total_pages_spec (total_count page_size : Int)
    (h : 0 ≤ total_count) :
    (page_size ≤ 0 →
      ClientRepository.calculate_total_pages total_count page_size = 0) ∧
    (0 < page_size →
      ClientRepository.calculate_total_pages total_count page_size =
        Int.tdiv (total_count + page_size - 1) page_size ∧
      total_count ≤ page_size *
        ClientRepository.calculate_total_pages total_count page_size ∧
      page_size *
        (ClientRepository.calculate_total_pages total_count page_size - 1) <
        total_count) ∧
    ClientRepository.calculate_total_pages 50 0 = 0 ∧
    ClientRepository.calculate_total_pages 32 15 = 3 := by
  refine ⟨fun hle => ?_, fun hpos => ?_, by decide, by decide⟩
  · simp [ClientRepository.calculate_total_pages, hle]
  · have hne : ¬ page_size ≤ 0 := not_le_of_lt hpos
    have hdef : ClientRepository.calculate_total_pages total_count page_size =
        Int.tdiv (total_count + page_size - 1) page_size := by
      simp [ClientRepository.calculate_total_pages, hne]
    refine ⟨hdef, ?_, ?_⟩
    · rw [hdef]; exact (tdiv_ceil_bounds total_count page_size h hpos).1
    · rw [hdef]; exact (tdiv_ceil_bounds total_count page_size h hpos).2

/-- Witness for C3 at `total_count = 32`, `page_size = 15`. -/
theorem calculate_total_pages_spec_witness :
    (0 : Int) ≤ 32 ∧
    ClientRepository.calculate_total_pages 32 15 =
      Int.tdiv (32 + 15 - 1) 15 :=
  ⟨by decide, ((calculate_total_pages_spec 32 15 (by decide)).2.1
    (by decide)).1⟩

/-- C5: `search_by`'s page number is 1-based: for every `page_number ≥ 1`
the offset is `(page_number - 1) * page_size` with no underflow, the
limit is `page_size = 15`, while `page_number = 0` underflows the
offset subtraction, which aborts `search_by` (modelled by `none`). -/
theorem page_offset_one_based :
    (∀ page_number : Nat, 1 ≤ page_number →
      ClientRepository.pageOffset page_number =
        some ((page_number - 1) * ClientRepository.page_size)) ∧
    ClientRepository.pageLimit = ClientRepository.page_size ∧
    ClientRepository.page_size = 15 ∧
    ClientRepository.pageOffset 0 = none ∧
    checked_sub 0 1 = none ∧
    (∀ (conn : Except String Unit) (criteria : ClientCriteria) (db : DB),
      ClientRepository.search_by conn criteria 0 db = none) := by
  refine ⟨fun p hp => ?_, rfl, rfl, rfl, rfl, fun conn criteria db => rfl⟩
  simp [ClientRepository.pageOffset, checked_sub, Nat.not_lt_of_le hp]

/-- Witness for C5 at `page_number = 3`. -/
theorem page_offset_one_based_witness :
    1 ≤ 3 ∧ ClientRepository.pageOffset 3 =
      some ((3 - 1) * ClientRepository.page_size) :=
  ⟨by decide, page_offset_one_based.1 3 (by decide)⟩

/-- C9 (divergence witness): `establish_connection` as written in
`src/adapters.rs` panics — it does not return an error value — both when
`DATABASE_URL` is unset and when the store is unreachable. -/
theorem establish_connection_panics_on_missing_url :
    establish_connection none (fun _ => true) =
      .panicked "DATABASE_URL must be set" ∧
    establish_connection (some "db.sqlite") (fun _ => false) =
      .panicked "Error connecting to db.sqlite" :=
  ⟨rfl, rfl⟩

/-- C10: `Client`'s `SoftDeletable` impl aliases the deleted flag to the
`active` field with no inversion: after `set_deleted b`, `is_deleted`
and `active` are both `b` and every other field is unchanged. -/
theorem set_deleted_aliases_active (c : Client) (b : Bool) :
    (c.set_deleted b).is_deleted = b ∧
    (c.set_deleted b).active = b ∧
    (c.set_deleted b).client_id = c.client_id ∧
    (c.set_deleted b).username = c.username ∧
    (c.set_deleted b).pwd = c.pwd ∧
    (c.set_deleted b).birth_date = c.birth_date := by
  simp [Client.set_deleted, Client.is_deleted]

/-- The filter predicate the spec describes for the three fields the
code actually filters on: conjunction of one equality per present
field among `active`, `username`, `birth_date`. -/
def criteria_pred (criteria : ClientCriteria) (r : Client) : Bool :=
  (match criteria.active with
   | some active => r.active == active
   | none => true) &&
  (match criteria.username with
   | some username => r.username == username
   | none => true) &&
  (match criteria.birth_date with
   | some birth_date => r.birth_date == birth_date
   | none => true)

/-- C2 (counterexample): with criteria whose only present fields are
`client_id = some 1` and `pwd = some "secret"`, a row with
`client_id = some 2` and `pwd = "other"` — disagreeing with both —
still matches the query filters of `search_by` and of `count_clients`,
is counted, and is returned by `search_by`; so present `client_id`
and `pwd` fields do not add equality predicates as the claim states. -/
theorem criteria_client_id_pwd_ignored_cex :
    (⟨some 1, none, none, some "secret", none⟩ : ClientCriteria).client_id ≠
      (⟨some 2, true, "u", "other", 0⟩ : Client).client_id ∧
    (⟨some 1, none, none, some "secret", none⟩ : ClientCriteria).pwd ≠
      some (⟨some 2, true, "u", "other", 0⟩ : Client).pwd ∧
    rowMatches
      (ClientRepository.search_filters ⟨some 1, none, none, some "secret", none⟩)
      ⟨some 2, true, "u", "other", 0⟩ = true ∧
    rowMatches
      (ClientRepository.count_filters ⟨some 1, none, none, some "secret", none⟩)
      ⟨some 2, true, "u", "other", 0⟩ = true ∧
    ClientRepository.count_clients ⟨some 1, none, none, some "secret", none⟩
      [⟨some 2, true, "u", "other", 0⟩] = 1 ∧
    ClientRepository.search_by (.ok ())
      ⟨some 1, none, none, some "secret", none⟩ 1
      [⟨some 2, true, "u", "other", 0⟩] =
      some (.ok ⟨1, 1, ⟨some 1, none, none, some "secret", none⟩,
        serializeClients [⟨some 2, true, "u", "other", 0⟩]⟩) := by
  refine ⟨by decide, by decide, rfl, rfl, rfl, ?_⟩
  have h1 := ClientRepository.search_by_ok_eq
    ⟨some 1, none, none, some "secret", none⟩ 1
    [⟨some 2, true, "u", "other", 0⟩] 0 (by decide)
  rw [h1]
  have h2 : ClientRepository.orderByUsername
      (([⟨some 2, true, "u", "other", 0⟩] : DB).filter
        (rowMatches (ClientRepository.search_filters
          ⟨some 1, none, none, some "secret", none⟩))) =
      [⟨some 2, true, "u", "other", 0⟩] :=
    List.mergeSort_singleton _
  rw [h2]
  rfl

/-- C2 (amended): each present `active`, `username` or `birth_date`
field of the criteria adds an equality predicate to the queries built
by `search_by` and `count_clients`, the predicates are conjoined with
logical AND, and each absent field adds no predicate; the `client_id`
and `pwd` fields are ignored — they never contribute a predicate. -/
theorem filters_only_active_username_birth_date
    (criteria : ClientCriteria) (r : Client) :
    rowMatches (ClientRepository.search_filters criteria) r =
      criteria_pred criteria r ∧
    rowMatches (ClientRepository.count_filters criteria) r =
      criteria_pred criteria r ∧
    (∀ (cid : Option Int) (pw : Option String),
      ClientRepository.search_filters
        { criteria with client_id := cid, pwd := pw } =
        ClientRepository.search_filters criteria) ∧
    (∀ (cid : Option Int) (pw : Option String),
      ClientRepository.count_filters
        { criteria with client_id := cid, pwd := pw } =
        ClientRepository.count_filters criteria) := by
  obtain ⟨cid, act, un, pw, bd⟩ := criteria
  refine ⟨?_, ?_, fun _ _ => rfl, fun _ _ => rfl⟩ <;>
    cases act <;> cases un <;> cases bd <;>
      simp [ClientRepository.search_filters, ClientRepository.count_filters,
        criteria_pred, rowMatches, Bool.and_assoc]

/-- `search_by` aborts (no value, no error) when the offset computation
underflows. -/
theorem search_by_none_eq (conn : Except String Unit)
    (criteria : ClientCriteria) (page_number : Nat) (db : DB)
    (hpo : ClientRepository.pageOffset page_number = none) :
    ClientRepository.search_by conn criteria page_number db = none := by
  simp only [ClientRepository.search_by, hpo]

/-- C6: the total-count query of `count_clients` is built from exactly
the same filter predicates as the page query inside `search_by`, and
consequently the `total_pages` carried by every `Search` that
`search_by` returns is computed from precisely the rows matching the
page query's own filter. -/
theorem count_and_search_filters_agree (criteria : ClientCriteria) :
    ClientRepository.count_filters criteria =
      ClientRepository.search_filters criteria ∧
    ∀ (db : DB) (page_number : Nat) (s : Search ClientCriteria),
      ClientRepository.search_by (.ok ()) criteria page_number db =
        some (.ok s) →
      s.total_pages =
        (ClientRepository.calculate_total_pages
          (((db.filter
              (rowMatches (ClientRepository.search_filters criteria))).length :
            Nat) : Int)
          (ClientRepository.page_size : Int)).toNat := by
  refine ⟨rfl, ?_⟩
  intro db page_number s h
  cases hpo : ClientRepository.pageOffset page_number with
  | none =>
    rw [search_by_none_eq (.ok ()) criteria page_number db hpo] at h
    exact Option.noConfusion h
  | some offset =>
    rw [ClientRepository.search_by_ok_eq criteria page_number db offset hpo]
      at h
    have hs := Except.ok.inj (Option.some.inj h)
    rw [← hs]
    rfl

/-- Witness for C6 on the empty criteria, empty database, page 1. -/
theorem count_and_search_filters_agree_witness :
    (⟨0, 1, ⟨none, none, none, none, none⟩, "[]"⟩ :
      Search ClientCriteria).total_pages =
      (ClientRepository.calculate_total_pages
        ((((([] : DB)).filter
            (rowMatches (ClientRepository.search_filters
              ⟨none, none, none, none, none⟩))).length : Nat) : Int)
        (ClientRepository.page_size : Int)).toNat :=
  (count_and_search_filters_agree ⟨none, none, none, none, none⟩).2 [] 1
    ⟨0, 1, ⟨none, none, none, none, none⟩, "[]"⟩
    (by rw [ClientRepository.search_by_ok_eq ⟨none, none, none, none, none⟩
          1 [] 0 (by decide)]
        rw [show ClientRepository.orderByUsername
            (List.filter (rowMatches (ClientRepository.search_filters
              ⟨none, none, none, none, none⟩)) []) = ([] : List Client) from
          List.mergeSort_nil]
        rfl)

/-- What `search_by_id` returns on a working connection: `Ok` of the
first row whose `client_id` equals the cast id, if any. -/
theorem search_by_id_ok_eq (id : Nat) (db : DB) :
    ClientRepository.search_by_id (.ok ()) id db =
      .ok ((db.filter
        (fun r => nullEq r.client_id (some (usizeToI32 id)))).head?) := by
  cases hh : (db.filter
      (fun r => nullEq r.client_id (some (usizeToI32 id)))).head? with
  | none => simp [ClientRepository.search_by_id, hh]
  | some c => simp [ClientRepository.search_by_id, hh]

/-- C7: `search_by_id` returns `Ok (some row)` when a row with the
requested identifier exists and `Ok none` when none does; absence is
never reported as an error, and an `Err` can only arise from a failed
connection (it propagates the connection error verbatim). -/
theorem search_by_id_not_found_is_ok (id : Nat) (db : DB) :
    (∀ c, c ∈ db → c.client_id = some (usizeToI32 id) →
      ∃ r, ClientRepository.search_by_id (.ok ()) id db = .ok (some r) ∧
        r ∈ db ∧ r.client_id = some (usizeToI32 id)) ∧
    ((∀ c, c ∈ db → c.client_id ≠ some (usizeToI32 id)) →
      ClientRepository.search_by_id (.ok ()) id db = .ok none) ∧
    (∀ (conn : Except String Unit) (e : String),
      ClientRepository.search_by_id conn id db = .error e →
      conn = .error e) := by
  refine ⟨?_, ?_, ?_⟩
  · intro c hc heq
    have hpc : nullEq c.client_id (some (usizeToI32 id)) = true :=
      (nullEq_some_iff _ _).2 heq
    have hmem : c ∈ db.filter
        (fun r => nullEq r.client_id (some (usizeToI32 id))) :=
      List.mem_filter.2 ⟨hc, hpc⟩
    cases hh : (db.filter
        (fun r => nullEq r.client_id (some (usizeToI32 id)))).head? with
    | none =>
      rw [List.head?_eq_none_iff] at hh
      rw [hh] at hmem
      exact absurd hmem (List.not_mem_nil c)
    | some r =>
      have hrmem : r ∈ db.filter
          (fun r => nullEq r.client_id (some (usizeToI32 id))) :=
        List.mem_of_mem_head? hh
      have hr := List.mem_filter.1 hrmem
      refine ⟨r, ?_, hr.1, (nullEq_some_iff _ _).1 hr.2⟩
      rw [search_by_id_ok_eq, hh]
  · intro hnone
    have hfil : db.filter
        (fun r => nullEq r.client_id (some (usizeToI32 id))) = [] := by
      rw [List.filter_eq_nil_iff]
      intro a ha
      simp only [Bool.not_eq_true]
      rw [← Bool.not_eq_true, nullEq_some_iff]
      exact hnone a ha
    rw [search_by_id_ok_eq, hfil]
    rfl
  · intro conn e h
    cases conn with
    | error e0 =>
      have he : e0 = e := by
        simpa [ClientRepository.search_by_id] using h
      rw [he]
    | ok u =>
      cases u
      rw [search_by_id_ok_eq] at h
      exact Except.noConfusion h

/-- Witness for C7: id 2 against a one-row database holding that id. -/
theorem search_by_id_not_found_is_ok_witness :
    ∃ r, ClientRepository.search_by_id (.ok ()) 2
        [⟨some 2, true, "bob", "pw", 7⟩] = .ok (some r) ∧
      r ∈ [(⟨some 2, true, "bob", "pw", 7⟩ : Client)] ∧
      r.client_id = some (usizeToI32 2) :=
  (search_by_id_not_found_is_ok 2 [⟨some 2, true, "bob", "pw", 7⟩]).1
    ⟨some 2, true, "bob", "pw", 7⟩ (by simp) (by decide)

/-- C8: for a client with a present identifier, `logically_delete`
rewrites the table by a per-row function that sets `active := false` on
the rows matching the identifier and leaves every other row — and every
other column of the matching rows — unchanged. -/
theorem logically_delete_frame (item : Client) (db : DB) (id : Int)
    (h : item.client_id = some id) :
    ∃ f : Client → Client,
      ClientRepository.logically_delete (.ok ()) item db =
        ⟨.ok (db.map f), true, true⟩ ∧
      ∀ r : Client,
        (f r).client_id = r.client_id ∧
        (f r).username = r.username ∧
        (f r).pwd = r.pwd ∧
        (f r).birth_date = r.birth_date ∧
        (r.client_id ≠ some id → f r = r) ∧
        (r.client_id = some id → f r = { r with active := false }) := by
  refine ⟨fun r =>
    if nullEq r.client_id (some id) then { r with active := false } else r,
    ?_, ?_⟩
  · simp [ClientRepository.logically_delete, Client.id, h]
  · intro r
    by_cases hr : r.client_id = some id
    · have hb : nullEq r.client_id (some id) = true :=
        (nullEq_some_iff _ _).2 hr
      simp [nullEq, hb, hr]
    · have hb : nullEq r.client_id (some id) = false :=
        Bool.eq_false_iff.mpr (fun hc => hr ((nullEq_some_iff _ _).1 hc))
      simp [hb, hr]

/-- Witness for C8 at a concrete client and two-row database. -/
theorem logically_delete_frame_witness :
    ∃ f : Client → Client,
      ClientRepository.logically_delete (.ok ())
        ⟨some 1, true, "bob", "pw", 7⟩
        [⟨some 1, true, "bob", "pw", 7⟩, ⟨some 2, true, "amy", "x", 3⟩] =
        ⟨.ok ([⟨some 1, true, "bob", "pw", 7⟩,
          ⟨some 2, true, "amy", "x", 3⟩].map f), true, true⟩ ∧
      ∀ r : Client,
        (f r).client_id = r.client_id ∧
        (f r).username = r.username ∧
        (f r).pwd = r.pwd ∧
        (f r).birth_date = r.birth_date ∧
        (r.client_id ≠ some 1 → f r = r) ∧
        (r.client_id = some 1 → f r = { r with active := false }) :=
  logically_delete_frame ⟨some 1, true, "bob", "pw", 7⟩
    [⟨some 1, true, "bob", "pw", 7⟩, ⟨some 2, true, "amy", "x", 3⟩] 1 rfl

/-- C4: requesting a page strictly beyond `total_pages` is not an
error: `search_by` returns `Ok` with the empty serialized row set, and
the `Search` it returns carries the same `total_pages` and `criteria`
as the in-range request with the same criteria does. -/
theorem search_by_out_of_range_page (criteria : ClientCriteria) (db : DB)
    (page_number inRange : Nat)
    (hout : ClientRepository.totalPagesFor criteria db < page_number)
    (hin : 1 ≤ inRange) :
    ∃ s t : Search ClientCriteria,
      ClientRepository.search_by (.ok ()) criteria page_number db =
        some (.ok s) ∧
      ClientRepository.search_by (.ok ()) criteria inRange db =
        some (.ok t) ∧
      s.result = "[]" ∧
      s.total_pages = ClientRepository.totalPagesFor criteria db ∧
      s.criteria = criteria ∧
      s.page = page_number ∧
      t.total_pages = s.total_pages ∧
      t.criteria = s.criteria := by
  have hp1 : 1 ≤ page_number := Nat.lt_of_le_of_lt (Nat.zero_le _) hout
  have hpo := ClientRepository.pageOffset_pos page_number hp1
  have hpo2 := ClientRepository.pageOffset_pos inRange hin
  refine ⟨_, _,
    ClientRepository.search_by_ok_eq criteria page_number db _ hpo,
    ClientRepository.search_by_ok_eq criteria inRange db _ hpo2,
    ?_, rfl, rfl, rfl, rfl, rfl⟩
  have hlen : (ClientRepository.orderByUsername
      (db.filter (rowMatches
        (ClientRepository.search_filters criteria)))).length ≤
      (page_number - 1) * ClientRepository.page_size := by
    rw [ClientRepository.orderByUsername_length]
    calc (db.filter (rowMatches
          (ClientRepository.search_filters criteria))).length ≤
        ClientRepository.page_size *
          ClientRepository.totalPagesFor criteria db :=
      ClientRepository.filtered_le_pages criteria db
    _ ≤ (page_number - 1) * ClientRepository.page_size := by
        rw [Nat.mul_comm]
        exact Nat.mul_le_mul_right _ (by omega)
  have hdrop : (ClientRepository.orderByUsername
      (db.filter (rowMatches
        (ClientRepository.search_filters criteria)))).drop
      ((page_number - 1) * ClientRepository.page_size) = [] :=
    List.drop_eq_nil_of_le hlen
  show serializeClients _ = "[]"
  rw [hdrop]
  rfl

/-- Witness for C4: empty criteria and database, page 2 versus page 1. -/
theorem search_by_out_of_range_page_witness :
    ∃ s t : Search ClientCriteria,
      ClientRepository.search_by (.ok ()) ⟨none, none, none, none, none⟩
        2 [] = some (.ok s) ∧
      ClientRepository.search_by (.ok ()) ⟨none, none, none, none, none⟩
        1 [] = some (.ok t) ∧
      s.result = "[]" ∧
      s.total_pages = ClientRepository.totalPagesFor
        ⟨none, none, none, none, none⟩ [] ∧
      s.criteria = (⟨none, none, none, none, none⟩ : ClientCriteria) ∧
      s.page = 2 ∧
      t.total_pages = s.total_pages ∧
      t.criteria = s.criteria :=
  search_by_out_of_range_page ⟨none, none, none, none, none⟩ [] 2 1
    (by decide) (by decide)
